import Mathlib

/-!
Shallow embedding of the SFDX CLI wrapper tasks (cumulusci/tasks/sfdx.py):
the JSON line handler `SFDXJsonTask`, the polling task `SFDXJsonPollingTask`,
the org-bound command/environment construction of `SFDXOrgTask`, the return
code handling of `SFDXConvertFrom`, and `SFDXDeploy`'s poll command builder.
Pieces that live outside the file (the base `Command` task's `_poll`,
`_run_command` and `_get_env`) are modelled from the spec and marked as such.
-/

/-- A scalar JSON value appearing in the CLI's line-oriented JSON output.
The records the tasks inspect are flat string-keyed objects of scalar values
(fields `id`, `done`, `status`, `message`), so objects are modelled as flat
association lists of scalars. -/
inductive JsonVal where
  | str (s : String)
  | bool (b : Bool)
  | num (n : Int)
  | null
deriving DecidableEq

/-- A decoded JSON object: an association list of fields (first binding wins). -/
abbrev JsonRecord := List (String × JsonVal)

/-- Python truthiness of a scalar JSON value. -/
def pyTruthy : JsonVal → Bool
  | .str s => !(s == "")
  | .bool b => b
  | .num n => if n = 0 then false else true
  | .null => false

/-- Python str() of a scalar JSON value, as used by string formatting. -/
def pyStr : JsonVal → String
  | .str s => s
  | .bool true => "True"
  | .bool false => "False"
  | .num n => toString n
  | .null => "None"

/-- Python dict.get(key, default) on a decoded record. -/
def dictGet (d : JsonRecord) (k : String) (dflt : JsonVal) : JsonVal :=
  (d.lookup k).getD dflt

/-- The Python-level exceptions the embedded methods can raise.
`commandException` is cumulusci's CommandException (the spec's
CommandFailure); `nonTermination` marks fuel exhaustion of the modelled
polling loop, which the Python source would run unboundedly. -/
inductive PyErr where
  | typeError
  | keyError (k : String)
  | jsonDecodeError
  | notImplementedError
  | commandException (msg : JsonVal)
  | nonTermination
deriving DecidableEq

/-- Outcome of running a method on a task object: a normal return carrying
the object's state, or a propagating exception. The exception also carries
the object's state, because attribute mutations made before a raise persist
in Python. -/
inductive PyResult (σ : Type) where
  | ok (st : σ)
  | exn (e : PyErr) (st : σ)
deriving DecidableEq

/-- Sequencing of two statements: an exception in the first propagates. -/
def PyResult.bind {σ : Type} (r : PyResult σ) (f : σ → PyResult σ) : PyResult σ :=
  match r with
  | .ok st => f st
  | .exn e st => .exn e st

/-- State of an SFDXJsonTask object: return_values['data'], which is absent
(`none`) until the first successfully parsed output line. -/
structure JsonSt where
  data : Option JsonRecord
deriving DecidableEq

/-- SFDXJsonTask._process_output (source lines 86-93): runs
json.loads(line) and stores the result in return_values['data']; on a decode
failure it logs the offending line and re-raises, so the stored record is
not touched. On success it calls _process_data, which for this class only
logs the record. `loads` stands for the external json.loads. -/
def SFDXJsonTask_process_output (loads : String → Option JsonRecord)
    (line : String) (st : JsonSt) : PyResult JsonSt :=
  match loads line with
  | none => .exn .jsonDecodeError st
  | some v => .ok { data := some v }

/-- SFDXConvertFrom._handle_returncode (source lines 179-182): on a truthy
(non-zero) return code it logs and raises CommandException with
return_values['data']['message']. Both lookups are subscripts, so a missing
'data' or 'message' key raises KeyError. The stderr parameter is unused by
the source and omitted here. -/
def SFDXConvertFrom_handle_returncode (returncode : Int) (st : JsonSt) :
    PyResult JsonSt :=
  if returncode ≠ 0 then
    match st.data with
    | none => .exn (.keyError "data") st
    | some d =>
      match d.lookup "message" with
      | none => .exn (.keyError "message") st
      | some m => .exn (.commandException m) st
  else .ok st

/-- The org_config fields SFDXOrgTask reads. `is_scratch` models
isinstance(org_config, ScratchOrgConfig). -/
structure OrgConfig where
  is_scratch : Bool
  username : String
  instance_url : String
  access_token : String
deriving DecidableEq

/-- Environment lookup in an association list (first binding wins). -/
def envGet : List (String × String) → String → Option String
  | [], _ => none
  | (k, v) :: rest, q => if k = q then some v else envGet rest q

/-- env[k] = v: Python dict assignment, modelled as a shadowing binding
observed through `envGet`. -/
def envSet (env : List (String × String)) (k v : String) :
    List (String × String) :=
  (k, v) :: env

/-- Modelled from the spec: the base Command task's _get_env
(cumulusci.tasks.command, not under src/) returns the inherited process
environment. -/
def Command_get_env (inherited : List (String × String)) :
    List (String × String) :=
  inherited

/-- The SFDXBaseTask.command class attribute (source line 26), the default
when options hold no 'command' entry. -/
def SFDXBaseTask_command : String := "force --help"

/-- SFDXBaseTask._get_command (source lines 42-47): formats
'sfdx {command}' from options.get('command', self.command). -/
def SFDXBaseTask_get_command (options_command : Option String) : String :=
  "sfdx " ++ options_command.getD SFDXBaseTask_command

/-- SFDXOrgTask._get_command (source lines 67-74): the base command, plus an
inline ' -u username' flag when the org is a scratch org. -/
def SFDXOrgTask_get_command (options_command : Option String)
    (org : OrgConfig) : String :=
  if org.is_scratch then
    SFDXBaseTask_get_command options_command ++ " -u " ++ org.username
  else
    SFDXBaseTask_get_command options_command

/-- SFDXOrgTask._get_env (source lines 76-82): the inherited environment,
plus SFDX_INSTANCE_URL and SFDX_USERNAME (bound to the access token) when
the org is not a scratch org. -/
def SFDXOrgTask_get_env (inherited : List (String × String))
    (org : OrgConfig) : List (String × String) :=
  let env := Command_get_env inherited
  if org.is_scratch then env
  else
    envSet (envSet env "SFDX_INSTANCE_URL" org.instance_url)
      "SFDX_USERNAME" org.access_token

/-- `needle` occurs as a contiguous substring of `hay`. -/
def strContains (needle hay : String) : Prop :=
  ∃ pre post, hay.toList = pre ++ needle.toList ++ post

/-- Per-invocation configuration visible to the polling task: the org
config, options['command'] at poll time, and the inherited process
environment. -/
structure Config where
  org : OrgConfig
  options_command : Option String
  inherited_env : List (String × String)

/-- Task-object state for SFDXJsonPollingTask / SFDXDeploy.
`job_id = none` models the attribute not existing (hasattr false),
`some none` models job_id = None, and `some (some v)` models job_id = v.
`data` is return_values['data']. `pending` scripts the single-line outputs
of the scripted future poll subprocess invocations (the external processes
of the scenario under evaluation). `poll_count`, `poll_commands` and
`ppd_count` are observation-only instrumentation — the number of poll
invocations issued, the command of each, and the number of times
_process_poll_data was entered; no control flow reads them. -/
structure TaskSt where
  data : Option JsonRecord
  job_id : Option (Option JsonVal)
  poll_complete : Bool
  pending : List String
  poll_count : Nat
  poll_commands : List (Option String)
  ppd_count : Nat
deriving DecidableEq

/-- SFDXJsonPollingTask._init_task (source lines 101-103): sets
job_id = None, so the attribute exists from then on. -/
def SFDXJsonPollingTask_init_task (st : TaskSt) : TaskSt :=
  { st with job_id := some none }

/-- Truthiness of self.job_id; an absent attribute and None are both falsy. -/
def jobIdTruthy (st : TaskSt) : Bool :=
  match st.job_id with
  | some (some v) => pyTruthy v
  | _ => false

/-- Parameter count of `def _check_poll_done(self)` (source line 138):
only self. -/
def check_poll_done_paramCount : Nat := 1

/-- Argument count of the call
`self._check_poll_done(self.return_values['data'])` (source line 126):
self plus one positional argument. -/
def check_poll_done_callArgCount : Nat := 2

/-- Body of SFDXJsonPollingTask._check_poll_done (source lines 138-139):
`return self.return_values['data'].get('done', True)`. -/
def SFDXJsonPollingTask_check_poll_done (st : TaskSt) :
    Except PyErr JsonVal :=
  match st.data with
  | none => .error (.keyError "data")
  | some d => .ok (dictGet d "done" (.bool true))

/-- SFDXJsonPollingTask._process_poll_data (source lines 124-127): logs the
record, then evaluates `self._check_poll_done(self.return_values['data'])`.
Python checks the call's argument count against the def's parameter count
before running the body; the counts differ, so the call raises TypeError.
On a (hypothetical) successful call, a truthy result sets poll_complete. -/
def SFDXJsonPollingTask_process_poll_data (st : TaskSt) : PyResult TaskSt :=
  let st1 := { st with ppd_count := st.ppd_count + 1 }
  if check_poll_done_callArgCount = check_poll_done_paramCount then
    match SFDXJsonPollingTask_check_poll_done st1 with
    | .error e => .exn e st1
    | .ok v =>
      if pyTruthy v then .ok { st1 with poll_complete := true } else .ok st1
  else .exn .typeError st1

/-- SFDXJsonPollingTask._get_poll_command (source lines 144-147): raises
NotImplementedError unconditionally; subclasses must override. -/
def SFDXJsonPollingTask_get_poll_command : Except PyErr (Option String) :=
  .error .notImplementedError

/-- SFDXDeploy._get_poll_command (source lines 229-234): returns None when
job_id is falsy; otherwise super()._get_command() — which by the MRO of
SFDXDeploy(SFDXJsonPollingTask, SFDXOrgTask) is SFDXOrgTask._get_command —
with ' -i {job_id}' appended. -/
def SFDXDeploy_get_poll_command (cfg : Config) (st : TaskSt) :
    Except PyErr (Option String) :=
  match st.job_id with
  | some (some v) =>
    if pyTruthy v then
      .ok (some (SFDXOrgTask_get_command cfg.options_command cfg.org
        ++ " -i " ++ pyStr v))
    else .ok none
  | _ => .ok none

mutual

/-- SFDXJsonPollingTask._process_output (source lines 105-115), executed on
an SFDXDeploy instance: computes started = hasattr(self, 'job_id'), runs the
inherited SFDXJsonTask._process_output — whose body (source lines 86-93)
parses the line into return_values['data'] or re-raises, then calls
self._process_data, which dispatches to the polling override — and finally
dispatches to _process_data when not started, else to _process_poll_data.
The Nat argument is fuel bounding the modelled polling loop. -/
def SFDXJsonPollingTask_process_output (cfg : Config)
    (loads : String → Option JsonRecord) :
    Nat → String → TaskSt → PyResult TaskSt
  | 0, _, st => .exn .nonTermination st
  | fuel+1, line, st =>
    let started := st.job_id.isSome
    match loads line with
    | none => .exn .jsonDecodeError st
    | some v =>
      PyResult.bind
        (SFDXJsonPollingTask_process_data cfg loads fuel
          { st with data := some v })
        (fun st2 =>
          if !started then SFDXJsonPollingTask_process_data cfg loads fuel st2
          else SFDXJsonPollingTask_process_poll_data st2)

/-- SFDXJsonPollingTask._process_data (source lines 117-122): when job_id is
truthy, delegate to _process_poll_data; otherwise read the record's 'id'
field by subscript (KeyError when absent) into job_id and start polling. -/
def SFDXJsonPollingTask_process_data (cfg : Config)
    (loads : String → Option JsonRecord) :
    Nat → TaskSt → PyResult TaskSt
  | 0, st => .exn .nonTermination st
  | fuel+1, st =>
    if jobIdTruthy st then SFDXJsonPollingTask_process_poll_data st
    else
      match st.data with
      | none => .exn (.keyError "data") st
      | some d =>
        match d.lookup "id" with
        | none => .exn (.keyError "id") st
        | some idv =>
          SFDXJsonPollingTask_poll cfg loads fuel
            { st with job_id := some (some idv) }

/-- Modelled from the spec: the base Command task's _poll (not under src/)
repeats _poll_action until the completion flag poll_complete is observed. -/
def SFDXJsonPollingTask_poll (cfg : Config)
    (loads : String → Option JsonRecord) :
    Nat → TaskSt → PyResult TaskSt
  | 0, st => .exn .nonTermination st
  | fuel+1, st =>
    if st.poll_complete then .ok st
    else
      PyResult.bind (SFDXJsonPollingTask_poll_action cfg loads fuel st)
        (SFDXJsonPollingTask_poll cfg loads fuel)

/-- SFDXJsonPollingTask._poll_action (source lines 129-135): builds the poll
command via self._get_poll_command (SFDXDeploy's override) and the
environment via self._get_env, then re-runs the command. The re-run
(_run_command, not under src/) is modelled from the spec: it issues one
fresh process invocation whose output lines are streamed back to
self._process_output; the scripted `pending` list supplies that process's
single output line. The invocation and its command are recorded in the
instrumentation fields. -/
def SFDXJsonPollingTask_poll_action (cfg : Config)
    (loads : String → Option JsonRecord) :
    Nat → TaskSt → PyResult TaskSt
  | 0, st => .exn .nonTermination st
  | fuel+1, st =>
    match SFDXDeploy_get_poll_command cfg st with
    | .error e => .exn e st
    | .ok cmd =>
      let _env := SFDXOrgTask_get_env cfg.inherited_env cfg.org
      let st1 := { st with poll_count := st.poll_count + 1,
                           poll_commands := st.poll_commands ++ [cmd] }
      match st1.pending with
      | [] => .ok st1
      | l :: rest =>
        SFDXJsonPollingTask_process_output cfg loads fuel l
          { st1 with pending := rest }

end

/-- A fresh task state: no parsed record, job_id attribute absent, nothing
polled yet. -/
def st0 : TaskSt :=
  { data := none, job_id := none, poll_complete := false, pending := [],
    poll_count := 0, poll_commands := [], ppd_count := 0 }

/-- json.loads for the spec's polling scenario: line L1 decodes to the
initial record with id "J1" and done false; L2-L4 decode to the poll records
with done false, false, true; everything else is malformed. -/
def scenLoads : String → Option JsonRecord := fun l =>
  if l = "L1" then some [("id", JsonVal.str "J1"), ("done", JsonVal.bool false)]
  else if l = "L2" then some [("done", JsonVal.bool false)]
  else if l = "L3" then some [("done", JsonVal.bool false)]
  else if l = "L4" then some [("done", JsonVal.bool true)]
  else none

/-- Configuration for the scenario: a non-scratch org and a deploy command. -/
def scenCfg : Config :=
  { org := { is_scratch := false, username := "user",
             instance_url := "https://x", access_token := "tok" },
    options_command := some "force:mdapi:deploy",
    inherited_env := [] }

/-- The state at the start of the scenario: _init_task has run (job_id is
None) and the three scripted poll outputs are pending. -/
def initSt : TaskSt :=
  SFDXJsonPollingTask_init_task { st0 with pending := ["L2", "L3", "L4"] }

/-- The single poll command the scenario actually issues. -/
def scenPollCommand : String := "sfdx force:mdapi:deploy -i J1"

/-- A state holding a first record with an 'id' field, job_id still None. -/
def c6st : TaskSt :=
  { st0 with data := some [("id", JsonVal.str "J1")], job_id := some none }

/-- A state whose job identifier is already set to "J1". -/
def c10st : TaskSt :=
  { st0 with job_id := some (some (JsonVal.str "J1")) }

/-- String append concatenates the character lists. -/
theorem toList_append (s t : String) : (s ++ t).toList = s.toList ++ t.toList :=
  rfl

/-- C9: every invocation of SFDXJsonPollingTask._process_poll_data raises
TypeError — the call passes the record to _check_poll_done, whose def takes
only self — so this path never sets poll_complete and never returns
normally. -/
theorem claim9_process_poll_data_typeerror (st : TaskSt) :
    SFDXJsonPollingTask_process_poll_data st =
      .exn .typeError { st with ppd_count := st.ppd_count + 1 } :=
  rfl

/-- C3: the default completion predicate _check_poll_done reads the stored
record's 'done' field, returning its boolean value when present and True
when the field is absent. -/
theorem claim3_check_poll_done_default (st : TaskSt) (d : JsonRecord)
    (h : st.data = some d) :
    (∀ b, d.lookup "done" = some (.bool b) →
        SFDXJsonPollingTask_check_poll_done st = .ok (.bool b)) ∧
    (d.lookup "done" = none →
        SFDXJsonPollingTask_check_poll_done st = .ok (.bool true)) := by
  constructor
  · intro b hb
    simp [SFDXJsonPollingTask_check_poll_done, h, dictGet, hb]
  · intro hb
    simp [SFDXJsonPollingTask_check_poll_done, h, dictGet, hb]

/-- C3 witness: concrete records with done = false and with done absent. -/
theorem claim3_check_poll_done_default_witness :
    SFDXJsonPollingTask_check_poll_done
        { st0 with data := some [("done", JsonVal.bool false)] } =
      .ok (.bool false) ∧
    SFDXJsonPollingTask_check_poll_done
        { st0 with data := some [("status", JsonVal.num 0)] } =
      .ok (.bool true) :=
  ⟨(claim3_check_poll_done_default _ [("done", JsonVal.bool false)] rfl).1
      false rfl,
   (claim3_check_poll_done_default _ [("status", JsonVal.num 0)] rfl).2 rfl⟩

/-- C4: a line that fails to decode raises (the decode error is logged and
re-raised, not swallowed) and leaves return_values['data'] unchanged. -/
theorem claim4_malformed_line_raises (loads : String → Option JsonRecord)
    (line : String) (st : JsonSt) (h : loads line = none) :
    SFDXJsonTask_process_output loads line st = .exn .jsonDecodeError st := by
  simp [SFDXJsonTask_process_output, h]

/-- C4 witness: a decoder rejecting everything, on a state holding a prior
record, which survives unchanged. -/
theorem claim4_malformed_line_raises_witness :
    SFDXJsonTask_process_output (fun _ => none) "not json"
        { data := some [("id", JsonVal.str "J1")] } =
      .exn .jsonDecodeError { data := some [("id", JsonVal.str "J1")] } :=
  claim4_malformed_line_raises (fun _ => none) "not json" _ rfl

/-- C7: a line that decodes successfully replaces the stored record with
exactly the decoded value, regardless of any previously stored record. -/
theorem claim7_parsed_line_replaces (loads : String → Option JsonRecord)
    (line : String) (st : JsonSt) (v : JsonRecord)
    (h : loads line = some v) :
    SFDXJsonTask_process_output loads line st = .ok { data := some v } := by
  simp [SFDXJsonTask_process_output, h]

/-- C7 witness: a prior record is wholly replaced, not merged. -/
theorem claim7_parsed_line_replaces_witness :
    SFDXJsonTask_process_output scenLoads "L2"
        { data := some [("id", JsonVal.str "J1"), ("done", JsonVal.bool false)] } =
      .ok { data := some [("done", JsonVal.bool false)] } :=
  claim7_parsed_line_replaces scenLoads "L2" _ [("done", JsonVal.bool false)] rfl

/-- C5 counterexample: exit code 1 with a stored record lacking 'message'
raises KeyError('message'), not a CommandException carrying a generic
exit-code message as the claim states. -/
theorem claim5_returncode_counterexample :
    SFDXConvertFrom_handle_returncode 1 { data := some [] } =
      .exn (.keyError "message") { data := some [] } :=
  rfl

/-- C5 amended: a non-zero exit code with 'message' present raises
CommandException with that message; with 'message' absent it raises
KeyError (no generic exit-code message exists); exit code 0 never raises,
whatever the record holds. -/
theorem claim5_returncode_amended (rc : Int) (st : JsonSt) (d : JsonRecord)
    (m : JsonVal) :
    (rc ≠ 0 → st.data = some d → d.lookup "message" = some m →
        SFDXConvertFrom_handle_returncode rc st =
          .exn (.commandException m) st) ∧
    (rc ≠ 0 → st.data = some d → d.lookup "message" = none →
        SFDXConvertFrom_handle_returncode rc st =
          .exn (.keyError "message") st) ∧
    (rc = 0 → SFDXConvertFrom_handle_returncode rc st = .ok st) := by
  refine ⟨?_, ?_, ?_⟩
  · intro h1 h2 h3
    simp [SFDXConvertFrom_handle_returncode, h1, h2, h3]
  · intro h1 h2 h3
    simp [SFDXConvertFrom_handle_returncode, h1, h2, h3]
  · intro h1
    simp [SFDXConvertFrom_handle_returncode, h1]

/-- C5 witness: exit code 1 with message "bad path" raises CommandException
with that message. -/
theorem claim5_returncode_amended_witness :
    SFDXConvertFrom_handle_returncode 1
        { data := some [("message", JsonVal.str "bad path")] } =
      .exn (.commandException (JsonVal.str "bad path"))
        { data := some [("message", JsonVal.str "bad path")] } :=
  (claim5_returncode_amended 1 _ [("message", JsonVal.str "bad path")]
      (JsonVal.str "bad path")).1 (by decide) rfl rfl

/-- C2 counterexample: with job_id = None — exactly the state _init_task
leaves before any record — SFDXDeploy._get_poll_command returns None, a
silent no-op value, not a ContractViolation-style error. -/
theorem claim2_poll_command_counterexample :
    SFDXDeploy_get_poll_command scenCfg (SFDXJsonPollingTask_init_task st0) =
      .ok none :=
  rfl

/-- C2 amended: before a truthy job identifier exists, SFDXDeploy's
_get_poll_command override returns None silently; only the abstract
SFDXJsonPollingTask._get_poll_command fails, and with NotImplementedError
rather than a ContractViolation. -/
theorem claim2_poll_command_amended (cfg : Config) (st : TaskSt)
    (h : jobIdTruthy st = false) :
    SFDXDeploy_get_poll_command cfg st = .ok none ∧
    SFDXJsonPollingTask_get_poll_command = .error .notImplementedError := by
  constructor
  · rcases hj : st.job_id with _ | (_ | v)
    · simp [SFDXDeploy_get_poll_command, hj]
    · simp [SFDXDeploy_get_poll_command, hj]
    · have hv : pyTruthy v = false := by
        simpa [jobIdTruthy, hj] using h
      simp [SFDXDeploy_get_poll_command, hj, hv]
  · rfl

/-- C2 witness: a job identifier holding the falsy empty string. -/
theorem claim2_poll_command_amended_witness :
    SFDXDeploy_get_poll_command scenCfg
        { st0 with job_id := some (some (JsonVal.str "")) } = .ok none :=
  (claim2_poll_command_amended scenCfg
      { st0 with job_id := some (some (JsonVal.str "")) } rfl).1

/-- C6 counterexample: the first record is {done: true} with no 'id' field
— the claim says it is treated as already terminal via the completion
predicate; the code instead raises KeyError('id') and poll_complete stays
false. -/
theorem claim6_first_record_counterexample :
    SFDXJsonPollingTask_process_data scenCfg scenLoads 5
        { st0 with data := some [("done", JsonVal.bool true)],
                   job_id := some none } =
      .exn (.keyError "id")
        { st0 with data := some [("done", JsonVal.bool true)],
                   job_id := some none } :=
  rfl

/-- C6 amended: on the first record (job_id still falsy) the 'id' field is
read by subscript: when present, its value — falsy or not — is stored as
job_id and _poll is invoked; when absent, KeyError is raised; the completion
predicate is never consulted on this path. -/
theorem claim6_first_record_amended (cfg : Config)
    (loads : String → Option JsonRecord) (fuel : Nat) (st : TaskSt)
    (d : JsonRecord) (hj : jobIdTruthy st = false) (hd : st.data = some d) :
    (d.lookup "id" = none →
        SFDXJsonPollingTask_process_data cfg loads (fuel+1) st =
          .exn (.keyError "id") st) ∧
    (∀ idv, d.lookup "id" = some idv →
        SFDXJsonPollingTask_process_data cfg loads (fuel+1) st =
          SFDXJsonPollingTask_poll cfg loads fuel
            { st with job_id := some (some idv) }) := by
  constructor
  · intro h
    simp [SFDXJsonPollingTask_process_data, hj, hd, h]
  · intro idv h
    simp [SFDXJsonPollingTask_process_data, hj, hd, h]

/-- C6 witness: the record [("id", "J1")] stores "J1" and moves to _poll. -/
theorem claim6_first_record_amended_witness :
    SFDXJsonPollingTask_process_data scenCfg scenLoads 3 c6st =
      SFDXJsonPollingTask_poll scenCfg scenLoads 2
        { c6st with job_id := some (some (JsonVal.str "J1")) } :=
  (claim6_first_record_amended scenCfg scenLoads 2 c6st
      [("id", JsonVal.str "J1")] rfl rfl).2 (JsonVal.str "J1") rfl

/-- C8: for a scratch (ephemeral) org the command gains an inline
' -u username' flag and the environment is exactly the inherited one; for a
non-scratch (persistent) org no flag is added and the environment is the
inherited one with exactly SFDX_INSTANCE_URL and SFDX_USERNAME (bound to the
access token) on top. -/
theorem claim8_org_session_passing (oc : Option String)
    (inherited : List (String × String)) (org : OrgConfig) :
    (org.is_scratch = true →
      strContains (" -u " ++ org.username) (SFDXOrgTask_get_command oc org) ∧
      SFDXOrgTask_get_env inherited org = inherited) ∧
    (org.is_scratch = false →
      SFDXOrgTask_get_command oc org = SFDXBaseTask_get_command oc ∧
      envGet (SFDXOrgTask_get_env inherited org) "SFDX_INSTANCE_URL" =
        some org.instance_url ∧
      envGet (SFDXOrgTask_get_env inherited org) "SFDX_USERNAME" =
        some org.access_token ∧
      ∀ k, k ≠ "SFDX_INSTANCE_URL" → k ≠ "SFDX_USERNAME" →
        envGet (SFDXOrgTask_get_env inherited org) k = envGet inherited k) := by
  constructor
  · intro h
    constructor
    · refine ⟨(SFDXBaseTask_get_command oc).toList, [], ?_⟩
      simp [SFDXOrgTask_get_command, h, toList_append]
    · simp [SFDXOrgTask_get_env, h, Command_get_env]
  · intro h
    refine ⟨?_, ?_, ?_, ?_⟩
    · simp [SFDXOrgTask_get_command, h]
    · simp [SFDXOrgTask_get_env, h, Command_get_env, envSet, envGet]
    · simp [SFDXOrgTask_get_env, h, Command_get_env, envSet, envGet]
    · intro k hk1 hk2
      simp [SFDXOrgTask_get_env, h, Command_get_env, envSet, envGet,
        Ne.symm hk1, Ne.symm hk2]

/-- C8 witness: a scratch org gets the inline flag and an untouched
environment; a non-scratch org gets the two variables over the inherited
PATH entry. -/
theorem claim8_org_session_passing_witness :
    (strContains (" -u " ++ "scratch-user")
        (SFDXOrgTask_get_command (some "force:mdapi:deploy")
          { is_scratch := true, username := "scratch-user",
            instance_url := "https://s", access_token := "stok" }) ∧
      SFDXOrgTask_get_env [("PATH", "p")]
        { is_scratch := true, username := "scratch-user",
          instance_url := "https://s", access_token := "stok" } =
        [("PATH", "p")]) ∧
    (envGet (SFDXOrgTask_get_env [("PATH", "p")] scenCfg.org)
        "SFDX_INSTANCE_URL" = some "https://x" ∧
      envGet (SFDXOrgTask_get_env [("PATH", "p")] scenCfg.org)
        "SFDX_USERNAME" = some "tok" ∧
      envGet (SFDXOrgTask_get_env [("PATH", "p")] scenCfg.org) "PATH" =
        envGet [("PATH", "p")] "PATH") :=
  ⟨(claim8_org_session_passing (some "force:mdapi:deploy") [("PATH", "p")]
      { is_scratch := true, username := "scratch-user",
        instance_url := "https://s", access_token := "stok" }).1 rfl,
   ((claim8_org_session_passing (some "force:mdapi:deploy") [("PATH", "p")]
        scenCfg.org).2 rfl).2.1,
   ((claim8_org_session_passing (some "force:mdapi:deploy") [("PATH", "p")]
        scenCfg.org).2 rfl).2.2.1,
   ((claim8_org_session_passing (some "force:mdapi:deploy") [("PATH", "p")]
        scenCfg.org).2 rfl).2.2.2 "PATH" (by decide) (by decide)⟩

/-- C10 counterexample: a parsed line processed while the job identifier is
set enters _process_poll_data exactly once, not twice — the first entry,
reached through _process_data inside the inherited _process_output, raises
TypeError, so _process_output's own dispatch to _process_poll_data never
executes. -/
theorem claim10_double_dispatch_counterexample :
    SFDXJsonPollingTask_process_output scenCfg scenLoads 5 "L2" c10st =
      .exn .typeError
        { c10st with data := some [("done", JsonVal.bool false)],
                     ppd_count := 1 } ∧
    ({ c10st with data := some [("done", JsonVal.bool false)],
                  ppd_count := 1 } : TaskSt).ppd_count ≠ 2 :=
  ⟨rfl, by decide⟩

/-- C10 amended: after _init_task the job_id attribute always exists, so
started is true for every line and the not-started branch of
_process_output is unreachable; for every line parsed while the job
identifier is truthy, _process_poll_data is entered exactly once — its
TypeError aborts _process_output before the second dispatch. -/
theorem claim10_double_dispatch_amended (cfg : Config)
    (loads : String → Option JsonRecord) (fuel : Nat) (line : String)
    (st st' : TaskSt) (v : JsonRecord) (hj : jobIdTruthy st = true)
    (hl : loads line = some v) :
    (SFDXJsonPollingTask_init_task st').job_id.isSome = true ∧
    SFDXJsonPollingTask_process_output cfg loads (fuel+2) line st =
      .exn .typeError
        { st with data := some v, ppd_count := st.ppd_count + 1 } := by
  have hj2 : jobIdTruthy { st with data := some v } = true := hj
  constructor
  · rfl
  · simp [SFDXJsonPollingTask_process_output, hl,
      SFDXJsonPollingTask_process_data, hj2,
      SFDXJsonPollingTask_process_poll_data, PyResult.bind,
      check_poll_done_callArgCount, check_poll_done_paramCount]

/-- C10 witness: the scenario line L3 processed at state c10st. -/
theorem claim10_double_dispatch_amended_witness :
    SFDXJsonPollingTask_process_output scenCfg scenLoads 7 "L3" c10st =
      .exn .typeError
        { c10st with data := some [("done", JsonVal.bool false)],
                     ppd_count := 1 } :=
  (claim10_double_dispatch_amended scenCfg scenLoads 5 "L3" c10st st0
      [("done", JsonVal.bool false)] rfl rfl).2

/-- C1: evaluating the spec's polling scenario on the embedded code — first
record {id "J1", done false}, scripted poll records done false, false, true
— the task raises TypeError while processing the first poll record, after
exactly one poll invocation rather than three, with poll_complete still
false (completion is never reached); the one poll command issued does
contain "J1". -/
theorem claim1_polling_scenario :
    SFDXJsonPollingTask_process_output scenCfg scenLoads 20 "L1" initSt =
      .exn .typeError
        { data := some [("done", JsonVal.bool false)],
          job_id := some (some (JsonVal.str "J1")),
          poll_complete := false,
          pending := ["L3", "L4"],
          poll_count := 1,
          poll_commands := [some scenPollCommand],
          ppd_count := 1 } ∧
    strContains "J1" scenPollCommand :=
  ⟨rfl, ⟨"sfdx force:mdapi:deploy -i ".toList, [], rfl⟩⟩
